import Mathlib

/-!
Shallow embedding of the gdlibcam repository: the `AprilTagDetector`
GDExtension class (`src/apriltag_detector.cpp` / `src/apriltag_detector.h`),
its libcamera request-completion callback `requestComplete`, and the GDScript
`MarkerTracker` (EMA filter and centroid tracking).

Conventions of the embedding:
- C++ `double` and GDScript `float` scalars are modelled as `ℚ`.
- `cv::Mat` calibration matrices are modelled as row-major `List ℚ`
  (the empty list models an empty `cv::Mat`).
- External library behaviour (OpenCV marker detection / pose solving /
  resizing, Godot engine vector-math primitives) is passed in as explicit
  function parameters; the repository's own code is translated directly.
- The capture callback is modelled as a state-transition function that also
  emits a trace of events (buffer mapping, pixel-format conversion, mutex
  lock/unlock, detection, publication of results, buffer reuse, requeue), so
  that ordering and lock-protection properties can be stated.
-/

/-- Godot `Vector3` / OpenCV `cv::Vec3d`, over `ℚ`. -/
structure V3 where
  x : ℚ
  y : ℚ
  z : ℚ
deriving DecidableEq, Repr

instance : Add V3 := ⟨fun a b => ⟨a.x + b.x, a.y + b.y, a.z + b.z⟩⟩

instance : Sub V3 := ⟨fun a b => ⟨a.x - b.x, a.y - b.y, a.z - b.z⟩⟩

/-- `Vector3 / int` (componentwise, as in GDScript `centroid / size()`). -/
def V3.divN (v : V3) (n : Nat) : V3 := ⟨v.x / n, v.y / n, v.z / n⟩

/-- The zero vector (`Vector3.ZERO`, also a default-constructed `Vector3`). -/
def V3.zero : V3 := ⟨0, 0, 0⟩

/-- A 3×3 matrix (Godot `Basis`), nine `ℚ` entries. -/
structure M3 where
  m00 : ℚ
  m01 : ℚ
  m02 : ℚ
  m10 : ℚ
  m11 : ℚ
  m12 : ℚ
  m20 : ℚ
  m21 : ℚ
  m22 : ℚ
deriving DecidableEq, Repr

/-- Matrix–vector product (`Basis * Vector3`). -/
def M3.mulVec (A : M3) (v : V3) : V3 :=
  ⟨A.m00 * v.x + A.m01 * v.y + A.m02 * v.z,
   A.m10 * v.x + A.m11 * v.y + A.m12 * v.z,
   A.m20 * v.x + A.m21 * v.y + A.m22 * v.z⟩

/-- `Basis.transposed()`. -/
def M3.transposed (A : M3) : M3 :=
  ⟨A.m00, A.m10, A.m20, A.m01, A.m11, A.m21, A.m02, A.m12, A.m22⟩

/-- `Basis.IDENTITY`. -/
def M3.identity : M3 := ⟨1, 0, 0, 0, 1, 0, 0, 0, 1⟩

/-- An 8-bit monochrome image (`cv::Mat` of type `CV_8UC1`):
width and height from the stream configuration, pixel bytes in row-major
order. -/
structure Frame where
  width : Nat
  height : Nat
  pixels : List Nat
deriving DecidableEq, Repr

/-- `cv::Mat::empty()`: true when the matrix has no elements (for a `Mat`
built from a mapped buffer this is `rows * cols = 0`; a default-constructed
`cv::Mat frame;` that was never assigned is modelled as `Option.none`
upstream). -/
def Frame.isEmpty (f : Frame) : Bool := f.width * f.height == 0

/-- `AprilTagDetector::DetectionResult` from `apriltag_detector.h`:
marker id, rotation vector, translation vector, and the corner array
(an `Array` of `[x, y]` point `Array`s, as built in
`process_frame_for_detection`). -/
structure DetectionResult where
  marker_id : Int
  rvec : V3
  tvec : V3
  corners : List (List ℚ)
deriving DecidableEq, Repr

/-- A default-constructed `DetectionResult` (its `Vector3` members are
zero-initialised, the `Array` empty). -/
def DetectionResult.zero : DetectionResult := ⟨0, V3.zero, V3.zero, []⟩

/-- The values storable in the Godot `Dictionary` built by
`get_latest_detections`. -/
inductive GValue where
  | int (i : Int)
  | vec (v : V3)
  | arr (a : List (List ℚ))
deriving DecidableEq, Repr

/-- The two `std::mutex` objects of `apriltag_detector.cpp`:
the file-scope `detection_mutex` and the member `frame_mutex`. -/
inductive MutexId where
  | detection
  | frame
deriving DecidableEq, Repr

/-- Observable events of one run of the capture callback or of the polling
reader, in program order. -/
inductive Event where
  | mapBuffer (bytes : Nat)
  | convert (f : Frame)
  | lock (m : MutexId)
  | unlock (m : MutexId)
  | storeVideoFrame (f : Frame)
  | detect (f : Frame) (rs : List DetectionResult)
  | publish (rs : List DetectionResult)
  | readDetections (rs : List DetectionResult)
  | reuse
  | requeue
deriving DecidableEq, Repr

/-- The external vision / image library (OpenCV) as used by the repository:
`ArucoDetector::detectMarkers` (returning corner lists and ids of equal
length), `cv::aruco::estimatePoseSingleMarkers` (corners, marker size,
camera matrix, distortion coefficients ↦ rvecs, tvecs), and `cv::resize`. -/
structure VisionLib where
  detectMarkers : Frame → List (List (ℚ × ℚ)) × List Int
  estimatePose : List (List (ℚ × ℚ)) → ℚ → List ℚ → List ℚ → List V3 × List V3
  resize : Frame → Nat → Nat → Frame

/-- `VIDEO_FRAME_SKIP` from `apriltag_detector.h`. -/
def VIDEO_FRAME_SKIP : Int := 10

/-- `VIDEO_WIDTH` from `apriltag_detector.h`. -/
def VIDEO_WIDTH : Nat := 400

/-- `VIDEO_HEIGHT` from `apriltag_detector.h`. -/
def VIDEO_HEIGHT : Nat := 300

/-- `PROCESS_EVERY_N_FRAMES` from `apriltag_detector.h` ("Process every
frame for faster detection updates"). -/
def PROCESS_EVERY_N_FRAMES : Nat := 1

/-- The fields of one `AprilTagDetector` object (`apriltag_detector.h`),
with external handles (`camera_manager`, `camera`, `allocator`) modelled by
presence booleans and the request vector by its length.  `is_init` models
the member the source spells with the suffix `d` after `is_initialize`. -/
structure DetectorState where
  camera_matrix : List ℚ
  dist_coeffs : List ℚ
  is_init : Bool
  marker_size : ℚ
  cameraManagerPresent : Bool
  cameraPresent : Bool
  allocatorPresent : Bool
  requests : Nat
  camera_running : Bool
  video_feedback_enabled : Bool
  current_frame : Option Frame
  video_frame_resized : Option Frame
  frame_skip_counter : Int
  video_frame_counter : Int
deriving DecidableEq, Repr

/-- The file-scope state shared between the callback and the reader:
`current_instance` and the global `latest_detections` guarded by
`detection_mutex`. -/
structure SysState where
  inst : Option DetectorState
  latest_detections : List DetectionResult
deriving DecidableEq, Repr

/-- One mapped plane of a completed request: `plane.bytesused`, the mapped
bytes, the stream-configuration dimensions, and whether `mmap` succeeded. -/
structure BufferInfo where
  bytesused : Nat
  data : List Nat
  width : Nat
  height : Nat
  mapOk : Bool
deriving DecidableEq, Repr

/-- A completed libcamera request: its cancellation status and buffers. -/
structure Request where
  cancelled : Bool
  buffers : List BufferInfo
deriving DecidableEq, Repr

/-- The detector constructed by `AprilTagDetector::AprilTagDetector()`:
`is_initialized`-flag false, `marker_size` 0.05, `camera_running` false,
`video_feedback_enabled` false, all handles empty. -/
def newDetector : DetectorState where
  camera_matrix := []
  dist_coeffs := []
  is_init := false
  marker_size := 1/20
  cameraManagerPresent := false
  cameraPresent := false
  allocatorPresent := false
  requests := 0
  camera_running := false
  video_feedback_enabled := false
  current_frame := none
  video_frame_resized := none
  frame_skip_counter := 0
  video_frame_counter := 0

/-- `AprilTagDetector::set_camera_matrix`: rejects arrays whose size is not
9, otherwise stores the nine values row-major and sets the
initialisation flag. -/
def set_camera_matrix (d : DetectorState) (matrix : List ℚ) : DetectorState :=
  if matrix.length ≠ 9 then d
  else { d with camera_matrix := matrix, is_init := true }

/-- `AprilTagDetector::set_distortion_coefficients`: rejects arrays whose
size is not 4, otherwise stores the four values. -/
def set_distortion_coefficients (d : DetectorState) (coeffs : List ℚ) : DetectorState :=
  if coeffs.length ≠ 4 then d
  else { d with dist_coeffs := coeffs }

/-- `AprilTagDetector::set_marker_size`. -/
def set_marker_size (d : DetectorState) (size : ℚ) : DetectorState :=
  { d with marker_size := size }

/-- `AprilTagDetector::get_camera_matrix`: empty array when the matrix is
empty, otherwise the nine reads `camera_matrix.at(i / 3, i % 3)` for
`i = 0, …, 8` (row-major element `(i / 3) * 3 + i % 3`). -/
def get_camera_matrix (d : DetectorState) : List ℚ :=
  if d.camera_matrix = [] then []
  else (List.range 9).map (fun i => d.camera_matrix.getD (i / 3 * 3 + i % 3) 0)

/-- `AprilTagDetector::get_distortion_coefficients`: empty array when the
coefficients are empty, otherwise the four reads `dist_coeffs.at(i, 0)`. -/
def get_distortion_coefficients (d : DetectorState) : List ℚ :=
  if d.dist_coeffs = [] then []
  else (List.range 4).map (fun i => d.dist_coeffs.getD i 0)

/-- `AprilTagDetector::load_camera_parameters`, with the Godot JSON file
reading and parsing (external) summarised by its outcome: `none` when the
file is missing, unparsable, or lacks the calibration section; otherwise
the flattened 3×3 camera matrix and the 4 distortion coefficients.  The
length checks model the row/size validation in the source. -/
def load_camera_parameters (d : DetectorState) (parsed : Option (List ℚ × List ℚ)) :
    DetectorState × Bool :=
  match parsed with
  | none => (d, false)
  | some (cm, dc) =>
    if cm.length = 9 ∧ dc.length = 4 then
      ({ d with camera_matrix := cm, dist_coeffs := dc, is_init := true }, true)
    else (d, false)

/-- External outcomes inside `initialize_camera`: whether any camera is
found, whether `config->validate()` is not `Invalid`, whether buffer
allocation succeeds, whether every `createRequest`/`addBuffer` succeeds,
the number of allocated buffers, and how many requests were pushed before
a failure. -/
structure CamEnv where
  camerasAvailable : Bool
  configValid : Bool
  allocOk : Bool
  requestsOk : Bool
  nbuffers : Nat
  pushedBeforeFail : Nat
deriving DecidableEq, Repr

/-- `AprilTagDetector`'s camera-setup method (source name: `initialize` ++
`_camera`): returns false at once when the camera is already running;
otherwise starts the camera manager, acquires the first camera, validates
the 1200×800 R8 configuration, allocates buffers and creates one request
per buffer, with each external failure point taken from `env`. -/
def init_camera (env : CamEnv) (d : DetectorState) : DetectorState × Bool :=
  if d.camera_running then (d, false)
  else
    let d1 := { d with cameraManagerPresent := true }
    if !env.camerasAvailable then (d1, false)
    else
      let d2 := { d1 with cameraPresent := true }
      if !env.configValid then (d2, false)
      else
        let d3 := { d2 with allocatorPresent := true }
        if !env.allocOk then (d3, false)
        else
          if env.requestsOk then ({ d3 with requests := env.nbuffers }, true)
          else ({ d3 with requests := env.pushedBeforeFail }, false)

/-- `AprilTagDetector::start_camera`: fails when no camera is held or the
camera is already running; otherwise connects the completion signal, sets
controls, starts the camera, queues all requests and marks it running. -/
def start_camera (d : DetectorState) : DetectorState × Bool :=
  if !d.cameraPresent || d.camera_running then (d, false)
  else ({ d with camera_running := true }, true)

/-- `AprilTagDetector::stop_camera`: stops and disconnects when running,
releases and resets the camera when held, clears the requests and the
allocator, and stops and resets the camera manager when present. -/
def stop_camera (d : DetectorState) : DetectorState :=
  let d1 := if d.camera_running && d.cameraPresent then { d with camera_running := false } else d
  let d2 := if d1.cameraPresent then { d1 with cameraPresent := false } else d1
  let d3 := { d2 with requests := 0, allocatorPresent := false }
  if d3.cameraManagerPresent then { d3 with cameraManagerPresent := false } else d3

/-- `AprilTagDetector::set_video_feedback_enabled`: stores the flag and,
when disabling, releases both stored frames. -/
def set_video_feedback_enabled (d : DetectorState) (enabled : Bool) : DetectorState :=
  if enabled then { d with video_feedback_enabled := true }
  else { d with video_feedback_enabled := false, current_frame := none,
                video_frame_resized := none }

/-- `AprilTagDetector::adjust_camera_matrix_for_resolution`: no-op on an
empty matrix; otherwise scales `fx` (entry 0) and `cx` (entry 2) by
`actual_width / calibration_width` and `fy` (entry 4) and `cy` (entry 5)
by `actual_height / calibration_height`. -/
def adjust_camera_matrix_for_resolution (d : DetectorState)
    (aw ah cw ch : Int) : DetectorState :=
  if d.camera_matrix = [] then d
  else
    let sx : ℚ := (aw : ℚ) / (cw : ℚ)
    let sy : ℚ := (ah : ℚ) / (ch : ℚ)
    let scaled := (List.range d.camera_matrix.length).map (fun i =>
      let v := d.camera_matrix.getD i 0
      if i = 0 then v * sx
      else if i = 4 then v * sy
      else if i = 2 then v * sx
      else if i = 5 then v * sy
      else v)
    { d with camera_matrix := scaled }

/-- `cvRound(v / 256.0)` for a 16-bit pixel value `v`: round to nearest,
ties to even (the IEEE `rint` used by OpenCV). -/
def cvRoundDiv256 (v : Nat) : Nat :=
  let q := v / 256
  let r := v % 256
  if r < 128 then q
  else if 128 < r then q + 1
  else if q % 2 = 0 then q else q + 1

/-- One pixel of `Mat::convertTo(frame, CV_8UC1, 1.0/256.0)`:
`saturate_cast<uchar>` of the scaled, rounded value. -/
def scale16to8 (v : Nat) : Nat := min 255 (cvRoundDiv256 v)

/-- The 16-bit pixel values of a `CV_16UC1` view of the mapped bytes
(little-endian host, as on the target ARM64 platform). -/
def pixels16 : List Nat → List Nat
  | lo :: hi :: rest => (lo + 256 * hi) :: pixels16 rest
  | _ => []

/-- The frame-construction block of `requestComplete`
(`apriltag_detector.cpp`, lines 262–277): with
`expected_8bit = width * height` and `expected_16bit = expected_8bit * 2`,
a buffer of `expected_8bit` bytes is used directly as an 8-bit monochrome
`cv::Mat`; a buffer of `expected_16bit` bytes is converted to 8-bit with
scale `1.0/256.0`; any other size leaves `frame` unassigned (`none`). -/
def convertBuffer (bytesused : Nat) (data : List Nat) (width height : Nat) :
    Option Frame :=
  let expected_8bit := width * height
  let expected_16bit := expected_8bit * 2
  if bytesused = expected_8bit then some ⟨width, height, data⟩
  else if bytesused = expected_16bit then
    some ⟨width, height, (pixels16 data).map scale16to8⟩
  else none

/-- `AprilTagDetector::process_frame_for_detection`: detect markers, then
for each id build a `DetectionResult`; pose estimation runs only when the
initialisation flag is set and both calibration matrices are non-empty,
and the pose defaults to the zero vectors when the solver output is too
short or calibration is absent. -/
def process_frame_for_detection (vl : VisionLib) (d : DetectorState) (frame : Frame) :
    List DetectionResult :=
  let dm := vl.detectMarkers frame
  let cornersAll := dm.1
  let ids := dm.2
  (List.range ids.length).map (fun i =>
    let pose : V3 × V3 :=
      if d.is_init && !d.camera_matrix.isEmpty && !d.dist_coeffs.isEmpty then
        let ep := vl.estimatePose cornersAll d.marker_size d.camera_matrix d.dist_coeffs
        if i < ep.1.length ∧ i < ep.2.length then
          (ep.1.getD i V3.zero, ep.2.getD i V3.zero)
        else (V3.zero, V3.zero)
      else (V3.zero, V3.zero)
    { marker_id := ids.getD i 0
      rvec := pose.1
      tvec := pose.2
      corners := (cornersAll.getD i []).map (fun p => [p.1, p.2]) })

/-- `AprilTagDetector::store_frame_for_video_feedback`: when video feedback
is enabled, fetch-and-increment the video frame counter and, on every
`VIDEO_FRAME_SKIP`-th frame, store the full frame and a 400×300 resized
copy under `frame_mutex`. -/
def storeFrameForVideoFeedback (vl : VisionLib) (d : DetectorState) (f : Frame) :
    DetectorState × List Event :=
  if d.video_feedback_enabled then
    let cnt := d.video_frame_counter
    let d1 := { d with video_frame_counter := cnt + 1 }
    if cnt % VIDEO_FRAME_SKIP = 0 then
      ({ d1 with current_frame := some f,
                 video_frame_resized := some (vl.resize f VIDEO_WIDTH VIDEO_HEIGHT) },
       [Event.lock MutexId.frame, Event.storeVideoFrame f, Event.unlock MutexId.frame])
    else (d1, [])
  else (d, [])

/-- `AprilTagDetector::requeue_request`: requeue only when a camera is held
and it is running. -/
def requeue_request_events (s : SysState) : List Event :=
  match s.inst with
  | some d => if d.cameraPresent && d.camera_running then [Event.requeue] else []
  | none => []

/-- The body of the buffer loop of `requestComplete`
(`apriltag_detector.cpp`, lines 244–302): map the buffer; on success build
the frame from the plane size; when the frame is non-empty and an instance
is registered, store the video-feedback frame, run detection on the frame,
and assign the results to the global `latest_detections` under
`detection_mutex`; finally mark the request for buffer reuse and, when an
instance is registered, call its requeue method. -/
def processBuffer (vl : VisionLib) (s : SysState) (b : BufferInfo) :
    SysState × List Event :=
  let step1 : SysState × List Event :=
    if b.mapOk then
      let frameOpt := convertBuffer b.bytesused b.data b.width b.height
      let convEvs : List Event :=
        match frameOpt with
        | some f => [Event.convert f]
        | none => []
      match frameOpt, s.inst with
      | some f, some d =>
        if !f.isEmpty then
          let sf := storeFrameForVideoFeedback vl d f
          let rs := process_frame_for_detection vl sf.1 f
          ({ inst := some sf.1, latest_detections := rs },
           Event.mapBuffer b.bytesused :: convEvs ++ sf.2 ++
             [Event.detect f rs, Event.lock MutexId.detection,
              Event.publish rs, Event.unlock MutexId.detection])
        else ({ s with inst := some d }, Event.mapBuffer b.bytesused :: convEvs)
      | _, _ => (s, Event.mapBuffer b.bytesused :: convEvs)
    else (s, [])
  (step1.1, step1.2 ++ [Event.reuse] ++ requeue_request_events step1.1)

/-- The request-completion callback `requestComplete`: early return on a
cancelled request, otherwise process each buffer of the request in turn. -/
def requestComplete (vl : VisionLib) (req : Request) (s : SysState) :
    SysState × List Event :=
  if req.cancelled then (s, [])
  else
    req.buffers.foldl (fun acc b =>
      let pb := processBuffer vl acc.1 b
      (pb.1, acc.2 ++ pb.2)) (s, [])

/-- `AprilTagDetector::get_latest_detections`: under `detection_mutex`,
render every stored `DetectionResult` as a `Dictionary` with keys
`id`, `rvec`, `tvec`, `corners` (in insertion order). -/
def get_latest_detections (s : SysState) : List (List (String × GValue)) :=
  s.latest_detections.map (fun det =>
    [("id", GValue.int det.marker_id),
     ("rvec", GValue.vec det.rvec),
     ("tvec", GValue.vec det.tvec),
     ("corners", GValue.arr det.corners)])

/-- `get_latest_detections` together with its synchronisation events: the
whole read of the shared list happens between the lock and unlock of
`detection_mutex`. -/
def get_latest_detections_run (s : SysState) :
    List (List (String × GValue)) × List Event :=
  (get_latest_detections s,
   [Event.lock MutexId.detection, Event.readDetections s.latest_detections,
    Event.unlock MutexId.detection])

/-- Scan a trace with the current hold-depth of mutex `m`; require every
access to the shared detection list (a `publish` write or a
`readDetections` read) to happen at positive depth. -/
def accessesGuarded (m : MutexId) : Int → List Event → Bool
  | _, [] => true
  | d, Event.lock m' :: rest =>
      accessesGuarded m (if m' = m then d + 1 else d) rest
  | d, Event.unlock m' :: rest =>
      accessesGuarded m (if m' = m then d - 1 else d) rest
  | d, Event.publish _ :: rest => decide (0 < d) && accessesGuarded m d rest
  | d, Event.readDetections _ :: rest => decide (0 < d) && accessesGuarded m d rest
  | d, _ :: rest => accessesGuarded m d rest

/-- Number of writes of the shared detection list in a trace. -/
def countPublish (tr : List Event) : Nat :=
  tr.countP (fun e => match e with | Event.publish _ => true | _ => false)

/-- Whether the registered instance currently holds a running camera
(`camera && camera_running` as tested by the requeue method; false when no
instance is registered, since the camera handle lives in the instance). -/
def cameraActive (s : SysState) : Bool :=
  match s.inst with
  | some d => d.cameraPresent && d.camera_running
  | none => false

/-- `ALPHA` from `MarkerTracker.gd`: the EMA smoothing factor 0.4. -/
def ALPHA : ℚ := 2/5

/-- `MARKER_OFFSETS` from `MarkerTracker.gd` (`id in MARKER_OFFSETS` is
membership; absent ids give `none`). -/
def MARKER_OFFSETS : Int → Option V3
  | 4 => some ⟨0, 1/10, -(69/1000)⟩
  | 8 => some ⟨0, 1/100, -(69/1000)⟩
  | 12 => some ⟨0, 0, -(1075/10000)⟩
  | 14 => some ⟨-(9/100), 0, -(69/1000)⟩
  | 20 => some ⟨1/10, 0, -(69/1000)⟩
  | _ => none

/-- The `ExponentialMovingAverageFilter3D` inner class of
`MarkerTracker.gd`: smoothing factor, the three running averages
(GDScript `var` floats, zero before first use), and the
initialisation marker. -/
structure EMAFilter where
  alpha : ℚ
  ema_x : ℚ
  ema_y : ℚ
  ema_z : ℚ
  filled : Bool
deriving DecidableEq, Repr

/-- `ExponentialMovingAverageFilter3D._init(alpha_value)`. -/
def EMAFilter.mk0 (alpha_value : ℚ) : EMAFilter :=
  { alpha := alpha_value, ema_x := 0, ema_y := 0, ema_z := 0, filled := false }

/-- `ExponentialMovingAverageFilter3D.update(new_coords)`: on the first
sample store the coordinates unchanged; afterwards blend each coordinate
as `alpha * new + (1 - alpha) * ema`.  Returns the updated filter and the
returned `Vector3`. -/
def EMAFilter.update (f : EMAFilter) (new_coords : V3) : EMAFilter × V3 :=
  if !f.filled then
    ({ f with ema_x := new_coords.x, ema_y := new_coords.y, ema_z := new_coords.z,
              filled := true },
     ⟨new_coords.x, new_coords.y, new_coords.z⟩)
  else
    let ex := f.alpha * new_coords.x + (1 - f.alpha) * f.ema_x
    let ey := f.alpha * new_coords.y + (1 - f.alpha) * f.ema_y
    let ez := f.alpha * new_coords.z + (1 - f.alpha) * f.ema_z
    ({ f with ema_x := ex, ema_y := ey, ema_z := ez }, ⟨ex, ey, ez⟩)

/-- One detection as consumed by `MarkerTracker.process_detections`
(the `id`, `rvec`, `tvec` entries of the dictionaries produced by
`get_latest_detections`). -/
structure Det where
  id : Int
  rvec : V3
  tvec : V3
deriving DecidableEq, Repr

/-- The mutable state of a `MarkerTracker` node (the fields the tracking
functions read and write; session/CSV bookkeeping is external file IO). -/
structure TrackerState where
  filter : EMAFilter
  first_frame : Bool
  first_ids : List Int
  first_rvecs : List V3
  first_tvecs : List V3
deriving DecidableEq, Repr

/-- `MarkerTracker._init()`: a fresh EMA filter with `ALPHA`, first-frame
flag set, empty reference lists. -/
def trackerInit : TrackerState :=
  { filter := EMAFilter.mk0 ALPHA, first_frame := true,
    first_ids := [], first_rvecs := [], first_tvecs := [] }

/-- `MarkerTracker._rodrigues_to_matrix(rvec)`: identity when the rotation
vector has zero length, else the engine `Basis(axis, angle)` constructor
applied to the normalised vector and the angle.  `len` models the engine
primitive `Vector3.length()` and `basisAA` the axis-angle `Basis`
constructor — both external engine math. -/
def rodriguesToMatrix (len : V3 → ℚ) (basisAA : V3 → ℚ → M3) (rvec : V3) : M3 :=
  let angle := len rvec
  if angle = 0 then M3.identity
  else
    let axis : V3 := ⟨rvec.x / angle, rvec.y / angle, rvec.z / angle⟩
    basisAA axis angle

/-- `MarkerTracker.get_centroid(detections)`: transform each detection
with a known offset by `R * offset + t`, return `Vector3.ZERO` when no
detection has a known offset, otherwise the mean of the transformed
positions. -/
def get_centroid (len : V3 → ℚ) (basisAA : V3 → ℚ → M3)
    (detections : List Det) : V3 :=
  let transformed_positions := detections.filterMap (fun det =>
    (MARKER_OFFSETS det.id).map (fun offset =>
      (rodriguesToMatrix len basisAA det.rvec).mulVec offset + det.tvec))
  if transformed_positions = [] then V3.zero
  else
    (transformed_positions.foldl (· + ·) V3.zero).divN transformed_positions.length

/-- `MarkerTracker.get_local_coordinates(first_detection, centroid)`:
rotate the centroid difference into the first marker's frame. -/
def get_local_coordinates (len : V3 → ℚ) (basisAA : V3 → ℚ → M3)
    (first : Det) (centroid : V3) : V3 :=
  let rotation_matrix := rodriguesToMatrix len basisAA first.rvec
  let offset := (MARKER_OFFSETS first.id).getD V3.zero
  let local_camera_t := rotation_matrix.mulVec offset + first.tvec
  (rotation_matrix.transposed).mulVec (local_camera_t - centroid)

/-- `MarkerTracker.process_detections(detections)`: return `Vector3.ZERO`
on an empty array; otherwise capture the first detection as the reference
on the first frame, compute the centroid, compute local coordinates from
the stored reference when one exists, and pass them through the EMA
filter.  (CSV recording is external file IO and does not affect the
returned value.)  Returns the updated tracker and the returned
`Vector3`. -/
def process_detections (len : V3 → ℚ) (basisAA : V3 → ℚ → M3)
    (t : TrackerState) (detections : List Det) : TrackerState × V3 :=
  if detections = [] then (t, V3.zero)
  else
    let t1 :=
      if t.first_frame then
        match detections with
        | det :: _ =>
          { t with first_ids := [det.id], first_rvecs := [det.rvec],
                   first_tvecs := [det.tvec], first_frame := false }
        | [] => t
      else t
    let centroid := get_centroid len basisAA detections
    let local_coordinates :=
      if t1.first_ids ≠ [] then
        get_local_coordinates len basisAA
          ⟨t1.first_ids.getD 0 0, t1.first_rvecs.getD 0 V3.zero,
           t1.first_tvecs.getD 0 V3.zero⟩ centroid
      else V3.zero
    let fu := t1.filter.update local_coordinates
    ({ t1 with filter := fu.1 }, fu.2)

/-- `MarkerTracker.reset_tracking()`. -/
def reset_tracking (t : TrackerState) : TrackerState :=
  { t with first_frame := true, first_ids := [], first_rvecs := [],
           first_tvecs := [], filter := EMAFilter.mk0 ALPHA }

/-- Reading back a stored row-major 3×3 matrix entry by entry at
`(i / 3, i % 3)` recovers the stored list. -/
theorem getD_range9 (m : List ℚ) (hm : m.length = 9) :
    (List.range 9).map (fun i => m.getD (i / 3 * 3 + i % 3) 0) = m := by
  apply List.ext_getElem
  · simpa using hm.symm
  · intro i h1 h2
    simp only [List.getElem_map, List.getElem_range]
    have hi : i / 3 * 3 + i % 3 = i := by omega
    rw [hi]
    exact List.getD_eq_getElem m 0 (by simpa [hm] using h2)

/-- Reading back the stored 4×1 coefficient column at `(i, 0)` recovers the
stored list. -/
theorem getD_range4 (c : List ℚ) (hc : c.length = 4) :
    (List.range 4).map (fun i => c.getD i 0) = c := by
  apply List.ext_getElem
  · simpa using hc.symm
  · intro i h1 h2
    simp only [List.getElem_map, List.getElem_range]
    exact List.getD_eq_getElem c 0 (by simpa [hc] using h2)

/-- Claim C9: storing a 9-element array with `set_camera_matrix` and reading
it back with `get_camera_matrix` returns the same array in the same
row-major order, and storing a 4-element array with
`set_distortion_coefficients` and reading it back with
`get_distortion_coefficients` returns the same array in the same order. -/
theorem c9_set_get_roundtrip (d : DetectorState) (m c : List ℚ)
    (hm : m.length = 9) (hc : c.length = 4) :
    get_camera_matrix (set_camera_matrix d m) = m ∧
    get_distortion_coefficients (set_distortion_coefficients d c) = c := by
  have hmne : m ≠ [] := by intro h; rw [h] at hm; simp at hm
  have hcne : c ≠ [] := by intro h; rw [h] at hc; simp at hc
  constructor
  · simp only [set_camera_matrix, hm, ne_eq, not_true_eq_false, if_false,
      get_camera_matrix, hmne]
    exact getD_range9 m hm
  · simp only [set_distortion_coefficients, hc, ne_eq, not_true_eq_false, if_false,
      get_distortion_coefficients, hcne]
    exact getD_range4 c hc

theorem c9_set_get_roundtrip_witness :
    get_camera_matrix (set_camera_matrix newDetector [1, 2, 3, 4, 5, 6, 7, 8, 9]) =
      [1, 2, 3, 4, 5, 6, 7, 8, 9] ∧
    get_distortion_coefficients
        (set_distortion_coefficients newDetector [10, 20, 30, 40]) =
      [10, 20, 30, 40] :=
  c9_set_get_roundtrip newDetector _ _ (by decide) (by decide)

/-- Claim C10: `set_camera_matrix` with an array whose size is not 9, and
`set_distortion_coefficients` with an array whose size is not 4, return
without modifying any detector state at all (in particular the stored
matrices and the initialisation flag). -/
theorem c10_set_rejects_bad_sizes (d : DetectorState) (m c : List ℚ)
    (hm : m.length ≠ 9) (hc : c.length ≠ 4) :
    set_camera_matrix d m = d ∧ set_distortion_coefficients d c = d := by
  constructor
  · simp [set_camera_matrix, hm]
  · simp [set_distortion_coefficients, hc]

theorem c10_set_rejects_bad_sizes_witness :
    set_camera_matrix newDetector [1, 2, 3] = newDetector ∧
    set_distortion_coefficients newDetector [1, 2, 3, 4, 5] = newDetector :=
  c10_set_rejects_bad_sizes newDetector _ _ (by decide) (by decide)

/-- The state-changing method calls of an `AprilTagDetector` object (the
operations a host script can invoke, plus the per-frame video-feedback
store performed by the capture callback). -/
inductive DetStep : DetectorState → DetectorState → Prop
  | load (d : DetectorState) (parsed : Option (List ℚ × List ℚ)) :
      DetStep d (load_camera_parameters d parsed).1
  | initCam (d : DetectorState) (env : CamEnv) : DetStep d (init_camera env d).1
  | start (d : DetectorState) : DetStep d (start_camera d).1
  | stop (d : DetectorState) : DetStep d (stop_camera d)
  | setMatrix (d : DetectorState) (m : List ℚ) : DetStep d (set_camera_matrix d m)
  | setDist (d : DetectorState) (c : List ℚ) :
      DetStep d (set_distortion_coefficients d c)
  | setSize (d : DetectorState) (x : ℚ) : DetStep d (set_marker_size d x)
  | setVideo (d : DetectorState) (b : Bool) :
      DetStep d (set_video_feedback_enabled d b)
  | adjust (d : DetectorState) (aw ah cw ch : Int) :
      DetStep d (adjust_camera_matrix_for_resolution d aw ah cw ch)
  | videoStore (d : DetectorState) (vl : VisionLib) (f : Frame) :
      DetStep d (storeFrameForVideoFeedback vl d f).1

/-- Detector states reachable from the freshly constructed detector. -/
def ReachableDet (d : DetectorState) : Prop :=
  Relation.ReflTransGen DetStep newDetector d

/-- Invariant: a reachable detector that is running holds a camera (only
`start_camera` sets the running flag, and it requires the camera). -/
theorem reachable_running_camera {d : DetectorState} (h : ReachableDet d) :
    d.camera_running = true → d.cameraPresent = true := by
  induction h with
  | refl => intro hr; simp [newDetector] at hr
  | tail _ step ih =>
    cases step with
    | load parsed =>
      cases parsed with
      | none => exact ih
      | some p =>
        simp only [load_camera_parameters]
        split <;> simp_all
    | initCam env =>
      simp only [init_camera]
      repeat' split
      all_goals simp_all
    | start =>
      simp only [start_camera]
      split
      · exact ih
      · rename_i hcond
        intro _
        simp only [Bool.or_eq_true, Bool.not_eq_true'] at hcond
        push_neg at hcond
        simpa using hcond.1
    | stop =>
      simp only [stop_camera]
      repeat' split
      all_goals simp_all
    | setMatrix m =>
      simp only [set_camera_matrix]
      split <;> simp_all
    | setDist c =>
      simp only [set_distortion_coefficients]
      split <;> simp_all
    | setSize x => simpa [set_marker_size] using ih
    | setVideo b =>
      simp only [set_video_feedback_enabled]
      split <;> simp_all
    | adjust aw ah cw ch =>
      simp only [adjust_camera_matrix_for_resolution]
      split <;> simp_all
    | videoStore vl f =>
      simp only [storeFrameForVideoFeedback]
      repeat' split
      all_goals simp_all

/-- Claim C5: the camera lifecycle is the two-valued `camera_running` flag:
`start_camera` succeeds exactly when a camera is held and the state is
off, in which case it turns the state on; on failure it returns false and
leaves the whole state unchanged; `stop_camera` always moves a reachable
detector to the off state; and the camera-setup method returns false
without touching any state when the camera is already running. -/
theorem c5_camera_lifecycle (d : DetectorState) (env : CamEnv)
    (h : ReachableDet d) :
    ((start_camera d).2 = true ↔
      (d.cameraPresent = true ∧ d.camera_running = false)) ∧
    ((start_camera d).2 = true → (start_camera d).1.camera_running = true) ∧
    ((start_camera d).2 = false → (start_camera d).1 = d) ∧
    (stop_camera d).camera_running = false ∧
    (d.camera_running = true → init_camera env d = (d, false)) := by
  refine ⟨?_, ?_, ?_, ?_, ?_⟩
  · simp only [start_camera]
    split
    · rename_i hcond
      simp only [Bool.or_eq_true, Bool.not_eq_true'] at hcond
      constructor
      · intro hfalse; simp at hfalse
      · rintro ⟨hp, hr⟩
        rcases hcond with hc | hc
        · rw [hp] at hc; exact absurd hc (by simp)
        · rw [hr] at hc; exact absurd hc (by simp)
    · rename_i hcond
      simp only [Bool.or_eq_true, Bool.not_eq_true'] at hcond
      push_neg at hcond
      exact ⟨fun _ => ⟨by simpa using hcond.1, by simpa using hcond.2⟩, fun _ => rfl⟩
  · simp only [start_camera]
    split
    · intro hfalse; simp at hfalse
    · intro _; rfl
  · simp only [start_camera]
    split
    · intro _; rfl
    · intro hfalse; simp at hfalse
  · by_cases hr : d.camera_running = true
    · have hp := reachable_running_camera h hr
      simp only [stop_camera, hr, hp, Bool.and_self, if_true]
      repeat' split
      all_goals rfl
    · simp only [Bool.not_eq_true] at hr
      simp only [stop_camera, hr, Bool.and_false, Bool.false_and, if_false]
      repeat' split
      all_goals simp_all
  · intro hr
    simp [init_camera, hr]

theorem c5_camera_lifecycle_witness :
    ((start_camera newDetector).2 = true ↔
      (newDetector.cameraPresent = true ∧ newDetector.camera_running = false)) ∧
    ((start_camera newDetector).2 = true →
      (start_camera newDetector).1.camera_running = true) ∧
    ((start_camera newDetector).2 = false → (start_camera newDetector).1 = newDetector) ∧
    (stop_camera newDetector).camera_running = false ∧
    (newDetector.camera_running = true →
      init_camera ⟨true, true, true, true, 4, 0⟩ newDetector = (newDetector, false)) :=
  c5_camera_lifecycle newDetector ⟨true, true, true, true, 4, 0⟩
    Relation.ReflTransGen.refl

/-- A buffer of `width * height` bytes is used directly as the 8-bit
monochrome frame. -/
theorem convertBuffer_8bit (bytes : Nat) (data : List Nat) (w h : Nat)
    (hb : bytes = w * h) :
    convertBuffer bytes data w h = some ⟨w, h, data⟩ := by
  simp [convertBuffer, hb]

/-- A buffer of `width * height * 2` bytes (for non-degenerate dimensions)
is converted pixel by pixel with `scale16to8`. -/
theorem convertBuffer_16bit (bytes : Nat) (data : List Nat) (w h : Nat)
    (hb : bytes = w * h * 2) (hwh : w * h ≠ 0) :
    convertBuffer bytes data w h = some ⟨w, h, (pixels16 data).map scale16to8⟩ := by
  subst hb
  have hne : w * h * 2 ≠ w * h := by omega
  simp [convertBuffer, hne]

/-- Any other buffer size leaves the frame unassigned. -/
theorem convertBuffer_none (bytes : Nat) (data : List Nat) (w h : Nat)
    (h8 : bytes ≠ w * h) (h16 : bytes ≠ w * h * 2) :
    convertBuffer bytes data w h = none := by
  simp [convertBuffer, h8, h16]

/-- The video-feedback store never changes the camera fields. -/
theorem storeFrame_preserves (vl : VisionLib) (d : DetectorState) (f : Frame) :
    (storeFrameForVideoFeedback vl d f).1.cameraPresent = d.cameraPresent ∧
    (storeFrameForVideoFeedback vl d f).1.camera_running = d.camera_running := by
  simp only [storeFrameForVideoFeedback]
  repeat' split
  all_goals simp

/-- The video-feedback store emits either no events or exactly one
`frame_mutex`-guarded store. -/
theorem storeFrame_trace (vl : VisionLib) (d : DetectorState) (f : Frame) :
    (storeFrameForVideoFeedback vl d f).2 = [] ∨
    (storeFrameForVideoFeedback vl d f).2 =
      [Event.lock MutexId.frame, Event.storeVideoFrame f,
       Event.unlock MutexId.frame] := by
  simp only [storeFrameForVideoFeedback]
  split
  · split
    · right; rfl
    · left; rfl
  · left; rfl

/-- `requeue_request_events` as a test of `cameraActive`. -/
theorem requeue_events_eq (s : SysState) :
    requeue_request_events s =
      (if cameraActive s then [Event.requeue] else []) := by
  cases hs : s.inst <;> simp [requeue_request_events, cameraActive, hs]

/-- Trace and state of the successful path of the buffer loop: mapping
succeeded, the size matched, the frame is non-empty and an instance is
registered. -/
theorem processBuffer_success (vl : VisionLib) (s : SysState) (b : BufferInfo)
    (d : DetectorState) (f : Frame)
    (hm : b.mapOk = true)
    (hf : convertBuffer b.bytesused b.data b.width b.height = some f)
    (hne : f.isEmpty = false)
    (hi : s.inst = some d) :
    processBuffer vl s b =
      ({ inst := some (storeFrameForVideoFeedback vl d f).1,
         latest_detections :=
           process_frame_for_detection vl (storeFrameForVideoFeedback vl d f).1 f },
       [Event.mapBuffer b.bytesused, Event.convert f] ++
         (storeFrameForVideoFeedback vl d f).2 ++
         [Event.detect f
            (process_frame_for_detection vl (storeFrameForVideoFeedback vl d f).1 f),
          Event.lock MutexId.detection,
          Event.publish
            (process_frame_for_detection vl (storeFrameForVideoFeedback vl d f).1 f),
          Event.unlock MutexId.detection, Event.reuse] ++
         (if d.cameraPresent && d.camera_running then [Event.requeue] else [])) := by
  have hpres := storeFrame_preserves vl d f
  simp only [processBuffer, hm, hf, hi, hne, Bool.not_false, if_true,
    requeue_events_eq, cameraActive, hpres.1, hpres.2]
  simp

/-- On a single-buffer, non-cancelled request the callback is exactly the
buffer loop body. -/
theorem requestComplete_single (vl : VisionLib) (req : Request) (s : SysState)
    (b : BufferInfo) (hc : req.cancelled = false) (hb : req.buffers = [b]) :
    requestComplete vl req s = processBuffer vl s b := by
  simp only [requestComplete, hc, Bool.false_eq_true, if_false, hb,
    List.foldl_cons, List.foldl_nil, List.nil_append]

/-- When the buffer size matches neither expected size, the buffer loop
leaves the whole shared state unchanged and emits only the map event, the
reuse mark, and any requeue. -/
theorem processBuffer_badsize (vl : VisionLib) (s : SysState) (b : BufferInfo)
    (h8 : b.bytesused ≠ b.width * b.height)
    (h16 : b.bytesused ≠ b.width * b.height * 2) :
    (processBuffer vl s b).1 = s ∧
    ((processBuffer vl s b).2 =
        [Event.reuse] ++ (if cameraActive s then [Event.requeue] else []) ∨
     (processBuffer vl s b).2 =
        [Event.mapBuffer b.bytesused, Event.reuse] ++
          (if cameraActive s then [Event.requeue] else [])) := by
  have hcv := convertBuffer_none b.bytesused b.data b.width b.height h8 h16
  cases hm : b.mapOk with
  | false =>
    constructor
    · simp [processBuffer, hm]
    · left
      simp [processBuffer, hm, requeue_events_eq]
  | true =>
    constructor
    · simp [processBuffer, hm, hcv]
    · right
      simp [processBuffer, hm, hcv, requeue_events_eq]

/-- A concrete vision library for evaluating the embedding on inputs:
one detected marker with id 4 and a fixed pose. -/
def vlTest : VisionLib where
  detectMarkers := fun _ => ([[(0, 0), (1, 0), (1, 1), (0, 1)]], [4])
  estimatePose := fun _ _ _ _ => ([⟨1, 2, 3⟩], [⟨4, 5, 6⟩])
  resize := fun f w h => ⟨w, h, f.pixels.take (w * h)⟩

/-- A detector that has been set up and started (camera held, running). -/
def detReady : DetectorState :=
  { newDetector with cameraPresent := true, camera_running := true }

/-- Shared state with a registered running instance and no detections yet. -/
def sysTest : SysState := { inst := some detReady, latest_detections := [] }

/-- A successfully mapped buffer whose 5 bytes match neither the 8-bit nor
the 16-bit size of its 2×2 stream. -/
def bufBad : BufferInfo :=
  { bytesused := 5, data := [0, 0, 0, 0, 0], width := 2, height := 2, mapOk := true }

/-- A completed, non-cancelled request carrying `bufBad`. -/
def reqBad : Request := { cancelled := false, buffers := [bufBad] }

/-- A successfully mapped 8-bit buffer for the 2×2 stream. -/
def bufGood : BufferInfo :=
  { bytesused := 4, data := [10, 20, 30, 40], width := 2, height := 2, mapOk := true }

/-- A completed, non-cancelled request carrying `bufGood`. -/
def reqGood : Request := { cancelled := false, buffers := [bufGood] }

/-- Claim C1 counterexample: a completed, non-cancelled request whose buffer
the callback maps successfully (`mapOk = true`) but whose 5-byte plane
matches neither accepted size of the 2×2 stream.  The callback performs no
conversion, no detection and no publication — its whole trace is the map,
the reuse mark and the requeue — and the shared detection list keeps its
old value, so the claim's conversion/detection/publication sequence and
the republication into the shared buffer do not happen for this
successfully-mapped request. -/
theorem c1_counterexample :
    reqBad.cancelled = false ∧ bufBad.mapOk = true ∧
    (requestComplete vlTest reqBad sysTest).2 =
      [Event.mapBuffer 5, Event.reuse, Event.requeue] ∧
    (requestComplete vlTest reqBad sysTest).1.latest_detections =
      sysTest.latest_detections := by
  refine ⟨rfl, rfl, ?_, ?_⟩ <;> decide

/-- Claim C1 (amended): for every completed, non-cancelled capture request
whose buffer the callback successfully maps, whose size the conversion
accepts with a non-empty result, and while an instance is registered, the
callback performs in order: map the buffer, convert to the 8-bit
monochrome frame, detect markers and estimate poses on that frame, and
republish the resulting list into the shared buffer between the lock and
unlock of the detection mutex; `get_latest_detections` on the resulting
state then returns exactly that list (rendered as dictionaries). -/
theorem c1_capture_pipeline (vl : VisionLib) (req : Request) (s : SysState)
    (b : BufferInfo) (d : DetectorState) (f : Frame)
    (hc : req.cancelled = false) (hb : req.buffers = [b])
    (hm : b.mapOk = true)
    (hf : convertBuffer b.bytesused b.data b.width b.height = some f)
    (hne : f.isEmpty = false)
    (hi : s.inst = some d) :
    ∃ rs vidEvs tailEvs,
      rs = process_frame_for_detection vl (storeFrameForVideoFeedback vl d f).1 f ∧
      (requestComplete vl req s).2 =
        [Event.mapBuffer b.bytesused, Event.convert f] ++ vidEvs ++
          [Event.detect f rs, Event.lock MutexId.detection, Event.publish rs,
           Event.unlock MutexId.detection] ++ tailEvs ∧
      (requestComplete vl req s).1.latest_detections = rs ∧
      get_latest_detections (requestComplete vl req s).1 =
        rs.map (fun det =>
          [("id", GValue.int det.marker_id), ("rvec", GValue.vec det.rvec),
           ("tvec", GValue.vec det.tvec), ("corners", GValue.arr det.corners)]) := by
  rw [requestComplete_single vl req s b hc hb,
    processBuffer_success vl s b d f hm hf hne hi]
  refine ⟨_, (storeFrameForVideoFeedback vl d f).2,
    [Event.reuse] ++ (if d.cameraPresent && d.camera_running then [Event.requeue] else []),
    rfl, ?_, rfl, ?_⟩
  · simp
  · simp [get_latest_detections]

theorem c1_capture_pipeline_witness :
    ∃ rs vidEvs tailEvs,
      rs = process_frame_for_detection vlTest
        (storeFrameForVideoFeedback vlTest detReady ⟨2, 2, [10, 20, 30, 40]⟩).1
        ⟨2, 2, [10, 20, 30, 40]⟩ ∧
      (requestComplete vlTest reqGood sysTest).2 =
        [Event.mapBuffer bufGood.bytesused, Event.convert ⟨2, 2, [10, 20, 30, 40]⟩] ++
          vidEvs ++
          [Event.detect ⟨2, 2, [10, 20, 30, 40]⟩ rs, Event.lock MutexId.detection,
           Event.publish rs, Event.unlock MutexId.detection] ++ tailEvs ∧
      (requestComplete vlTest reqGood sysTest).1.latest_detections = rs ∧
      get_latest_detections (requestComplete vlTest reqGood sysTest).1 =
        rs.map (fun det =>
          [("id", GValue.int det.marker_id), ("rvec", GValue.vec det.rvec),
           ("tvec", GValue.vec det.tvec), ("corners", GValue.arr det.corners)]) :=
  c1_capture_pipeline vlTest reqGood sysTest bufGood detReady ⟨2, 2, [10, 20, 30, 40]⟩
    rfl rfl rfl (by decide) (by decide) rfl

/-- Claim C3: the conversion step accepts exactly two buffer sizes for a
`w`×`h` stream — `w*h` bytes are used directly as the 8-bit monochrome
frame, `w*h*2` bytes are converted 16-bit→8-bit pixelwise with the
1/256 scaling (`scale16to8`) — and any other size performs no detection
and no publication and leaves the shared detection list unchanged. -/
theorem c3_pixel_format_cases (vl : VisionLib) (s : SysState) (b : BufferInfo) :
    (b.bytesused = b.width * b.height →
      convertBuffer b.bytesused b.data b.width b.height =
        some ⟨b.width, b.height, b.data⟩) ∧
    (b.bytesused = b.width * b.height * 2 → b.width * b.height ≠ 0 →
      convertBuffer b.bytesused b.data b.width b.height =
        some ⟨b.width, b.height, (pixels16 b.data).map scale16to8⟩) ∧
    (b.bytesused ≠ b.width * b.height → b.bytesused ≠ b.width * b.height * 2 →
      (processBuffer vl s b).1.latest_detections = s.latest_detections ∧
      (∀ f rs, Event.detect f rs ∉ (processBuffer vl s b).2) ∧
      (∀ rs, Event.publish rs ∉ (processBuffer vl s b).2)) := by
  refine ⟨fun h8 => convertBuffer_8bit _ _ _ _ h8,
    fun h16 hwh => convertBuffer_16bit _ _ _ _ h16 hwh,
    fun h8 h16 => ?_⟩
  obtain ⟨hstate, htr⟩ := processBuffer_badsize vl s b h8 h16
  refine ⟨by rw [hstate], ?_, ?_⟩
  · intro f rs
    rcases htr with h | h <;> rw [h] <;> split <;> simp
  · intro rs
    rcases htr with h | h <;> rw [h] <;> split <;> simp

theorem c3_pixel_format_cases_witness :
    convertBuffer bufGood.bytesused bufGood.data bufGood.width bufGood.height =
      some ⟨2, 2, [10, 20, 30, 40]⟩ ∧
    convertBuffer 8 [0, 1, 0, 1, 128, 0, 255, 255] 2 2 =
      some ⟨2, 2, (pixels16 [0, 1, 0, 1, 128, 0, 255, 255]).map scale16to8⟩ ∧
    (processBuffer vlTest sysTest bufBad).1.latest_detections =
      sysTest.latest_detections := by
  refine ⟨(c3_pixel_format_cases vlTest sysTest bufGood).1 (by decide), ?_, ?_⟩
  · exact (c3_pixel_format_cases vlTest sysTest
      ⟨8, [0, 1, 0, 1, 128, 0, 255, 255], 2, 2, true⟩).2.1 (by decide) (by decide)
  · exact ((c3_pixel_format_cases vlTest sysTest bufBad).2.2
      (by decide) (by decide)).1

/-- Claim C4: for every frame the callback successfully maps and converts
to a non-empty image (with an instance registered), marker detection is
invoked on exactly that frame — and this holds for every value of the
`frame_skip_counter`, so no frame is ever skipped on the detection
path. -/
theorem c4_every_frame_detected (vl : VisionLib) (req : Request) (s : SysState)
    (b : BufferInfo) (d : DetectorState) (f : Frame)
    (hc : req.cancelled = false) (hb : req.buffers = [b]) (hm : b.mapOk = true)
    (hf : convertBuffer b.bytesused b.data b.width b.height = some f)
    (hne : f.isEmpty = false) (hi : s.inst = some d) :
    (∃ rs, Event.detect f rs ∈ (requestComplete vl req s).2) ∧
    (∀ c : Int,
      ∃ rs, Event.detect f rs ∈
        (requestComplete vl req
          ⟨some { d with frame_skip_counter := c }, s.latest_detections⟩).2) := by
  constructor
  · refine ⟨process_frame_for_detection vl (storeFrameForVideoFeedback vl d f).1 f, ?_⟩
    rw [requestComplete_single vl req s b hc hb,
      processBuffer_success vl s b d f hm hf hne hi]
    simp
  · intro c
    refine ⟨process_frame_for_detection vl
      (storeFrameForVideoFeedback vl { d with frame_skip_counter := c } f).1 f, ?_⟩
    rw [requestComplete_single vl req _ b hc hb,
      processBuffer_success vl _ b { d with frame_skip_counter := c } f hm hf hne rfl]
    simp

theorem c4_every_frame_detected_witness :
    (∃ rs, Event.detect ⟨2, 2, [10, 20, 30, 40]⟩ rs ∈
      (requestComplete vlTest reqGood sysTest).2) ∧
    (∀ c : Int,
      ∃ rs, Event.detect ⟨2, 2, [10, 20, 30, 40]⟩ rs ∈
        (requestComplete vlTest reqGood
          ⟨some { detReady with frame_skip_counter := c },
           sysTest.latest_detections⟩).2) :=
  c4_every_frame_detected vlTest reqGood sysTest bufGood detReady
    ⟨2, 2, [10, 20, 30, 40]⟩ rfl rfl rfl (by decide) (by decide) rfl

/-- The buffer loop body never changes whether the instance's camera is
held and running. -/
theorem processBuffer_cameraActive (vl : VisionLib) (s : SysState) (b : BufferInfo) :
    cameraActive (processBuffer vl s b).1 = cameraActive s := by
  by_cases hm : b.mapOk = true
  · cases hcv : convertBuffer b.bytesused b.data b.width b.height with
    | none => simp [processBuffer, hm, hcv]
    | some f =>
      cases hi : s.inst with
      | none => simp [processBuffer, hm, hcv, hi]
      | some d =>
        by_cases hne : f.isEmpty = true
        · simp [processBuffer, hm, hcv, hi, hne, cameraActive]
        · rw [Bool.not_eq_true] at hne
          rw [processBuffer_success vl s b d f hm hcv hne hi]
          have hpres := storeFrame_preserves vl d f
          simp [cameraActive, hi, hpres.1, hpres.2]
  · rw [Bool.not_eq_true] at hm
    simp [processBuffer, hm]

/-- The buffer loop body's trace is some events (none of them reuse or
requeue marks), then the reuse mark, then the requeue exactly when the
camera is held and running. -/
theorem processBuffer_tail_structure (vl : VisionLib) (s : SysState) (b : BufferInfo) :
    ∃ evs, (processBuffer vl s b).2 =
        evs ++ [Event.reuse] ++ (if cameraActive s then [Event.requeue] else []) ∧
      Event.requeue ∉ evs ∧ Event.reuse ∉ evs := by
  by_cases hm : b.mapOk = true
  · cases hcv : convertBuffer b.bytesused b.data b.width b.height with
    | none =>
      refine ⟨[Event.mapBuffer b.bytesused], ?_, by simp, by simp⟩
      simp [processBuffer, hm, hcv, requeue_events_eq]
    | some f =>
      cases hi : s.inst with
      | none =>
        refine ⟨[Event.mapBuffer b.bytesused, Event.convert f], ?_, by simp, by simp⟩
        simp [processBuffer, hm, hcv, hi, requeue_events_eq]
      | some d =>
        by_cases hne : f.isEmpty = true
        · refine ⟨[Event.mapBuffer b.bytesused, Event.convert f], ?_, by simp, by simp⟩
          have : cameraActive { s with inst := some d } = cameraActive s := by
            simp [cameraActive, hi]
          simp [processBuffer, hm, hcv, hi, hne, requeue_events_eq, this]
        · rw [Bool.not_eq_true] at hne
          rw [processBuffer_success vl s b d f hm hcv hne hi]
          have hpres := storeFrame_preserves vl d f
          refine ⟨[Event.mapBuffer b.bytesused, Event.convert f] ++
            (storeFrameForVideoFeedback vl d f).2 ++
            [Event.detect f (process_frame_for_detection vl
               (storeFrameForVideoFeedback vl d f).1 f),
             Event.lock MutexId.detection,
             Event.publish (process_frame_for_detection vl
               (storeFrameForVideoFeedback vl d f).1 f),
             Event.unlock MutexId.detection], ?_, ?_, ?_⟩
          · have hact : cameraActive s = (d.cameraPresent && d.camera_running) := by
              simp [cameraActive, hi]
            rw [hact]
            simp
          · rcases storeFrame_trace vl d f with h | h <;> rw [h] <;> simp
          · rcases storeFrame_trace vl d f with h | h <;> rw [h] <;> simp
  · rw [Bool.not_eq_true] at hm
    refine ⟨[], ?_, by simp, by simp⟩
    simp [processBuffer, hm, requeue_events_eq]

/-- Claim C8: after processing a completed (single-buffer, non-cancelled)
request the callback marks it for buffer reuse, and it requeues the same
request exactly when the instance's camera is held and running — never
when the camera is absent or the camera state is off; when it requeues,
the requeue immediately follows the reuse mark at the end of the trace. -/
theorem c8_reuse_requeue (vl : VisionLib) (req : Request) (s : SysState)
    (b : BufferInfo) (hc : req.cancelled = false) (hb : req.buffers = [b]) :
    Event.reuse ∈ (requestComplete vl req s).2 ∧
    (Event.requeue ∈ (requestComplete vl req s).2 ↔ cameraActive s = true) ∧
    (cameraActive s = true →
      ∃ pre, (requestComplete vl req s).2 = pre ++ [Event.reuse, Event.requeue]) ∧
    (cameraActive s = false →
      ∃ pre, (requestComplete vl req s).2 = pre ++ [Event.reuse]) := by
  rw [requestComplete_single vl req s b hc hb]
  obtain ⟨evs, htr, hnoreq, hnoreu⟩ := processBuffer_tail_structure vl s b
  rw [htr]
  refine ⟨by simp, ?_, ?_, ?_⟩
  · constructor
    · intro hmem
      by_contra hact
      rw [Bool.not_eq_true] at hact
      simp [hact] at hmem
      exact hnoreq hmem
    · intro hact
      rw [hact]
      simp
  · intro hact
    rw [hact]
    exact ⟨evs, by simp⟩
  · intro hact
    rw [hact]
    exact ⟨evs, by simp⟩

theorem c8_reuse_requeue_witness :
    (Event.reuse ∈ (requestComplete vlTest reqGood sysTest).2 ∧
      (Event.requeue ∈ (requestComplete vlTest reqGood sysTest).2 ↔
        cameraActive sysTest = true) ∧
      (cameraActive sysTest = true →
        ∃ pre, (requestComplete vlTest reqGood sysTest).2 =
          pre ++ [Event.reuse, Event.requeue]) ∧
      (cameraActive sysTest = false →
        ∃ pre, (requestComplete vlTest reqGood sysTest).2 =
          pre ++ [Event.reuse])) :=
  c8_reuse_requeue vlTest reqGood sysTest bufGood rfl rfl

/-- A running detector with video feedback enabled (counter at zero, so the
next frame is stored). -/
def detVideo : DetectorState := { detReady with video_feedback_enabled := true }

/-- Shared state whose registered instance has video feedback enabled. -/
def sysVideo : SysState := { inst := some detVideo, latest_detections := [] }

/-- Claim C2 counterexample: with video feedback enabled, one callback run
locks `frame_mutex` — a mutex distinct from `detection_mutex` — so a
single mutex is not the only concurrency coordination in the program. -/
theorem c2_counterexample :
    Event.lock MutexId.frame ∈ (requestComplete vlTest reqGood sysVideo).2 ∧
    MutexId.frame ≠ MutexId.detection := by
  refine ⟨?_, by decide⟩
  decide

/-- Every access to the shared detection list in a buffer-loop trace holds
`detection_mutex`, and the loop writes the list at most once. -/
theorem processBuffer_guarded (vl : VisionLib) (s : SysState) (b : BufferInfo) :
    accessesGuarded MutexId.detection 0 (processBuffer vl s b).2 = true ∧
    countPublish (processBuffer vl s b).2 ≤ 1 := by
  by_cases hm : b.mapOk = true
  · cases hcv : convertBuffer b.bytesused b.data b.width b.height with
    | none =>
      simp only [processBuffer, hm, hcv, if_true, requeue_events_eq]
      constructor <;> split <;> simp [accessesGuarded, countPublish]
    | some f =>
      cases hi : s.inst with
      | none =>
        simp only [processBuffer, hm, hcv, hi, if_true, requeue_events_eq]
        constructor <;> split <;> simp [accessesGuarded, countPublish]
      | some d =>
        by_cases hne : f.isEmpty = true
        · simp only [processBuffer, hm, hcv, hi, hne, Bool.not_true, if_true,
            Bool.false_eq_true, if_false, requeue_events_eq]
          constructor <;> split <;> simp [accessesGuarded, countPublish]
        · rw [Bool.not_eq_true] at hne
          rw [processBuffer_success vl s b d f hm hcv hne hi]
          rcases storeFrame_trace vl d f with h | h <;> rw [h] <;>
            constructor <;> split <;>
            simp [accessesGuarded, countPublish, List.countP_cons]
  · rw [Bool.not_eq_true] at hm
    simp only [processBuffer, hm, Bool.false_eq_true, if_false, requeue_events_eq]
    constructor <;> split <;> simp [accessesGuarded, countPublish]

/-- Claim C2 (amended): the detection-result handoff is guarded by the one
`detection_mutex` — in every callback run on a completed single-buffer
request, every write of the shared detection list happens while that
mutex is held and there is at most one such write (a single assignment),
and the polling reader `get_latest_detections` reads the list while
holding the same mutex.  (The program does use further coordination for
other data: `frame_mutex` for the video-feedback frames and two atomic
counters.) -/
theorem c2_detection_mutex_guards (vl : VisionLib) (req : Request) (s : SysState)
    (b : BufferInfo) (hc : req.cancelled = false) (hb : req.buffers = [b]) :
    accessesGuarded MutexId.detection 0 (requestComplete vl req s).2 = true ∧
    countPublish (requestComplete vl req s).2 ≤ 1 ∧
    accessesGuarded MutexId.detection 0 (get_latest_detections_run s).2 = true := by
  rw [requestComplete_single vl req s b hc hb]
  obtain ⟨hg, hcount⟩ := processBuffer_guarded vl s b
  exact ⟨hg, hcount, by simp [get_latest_detections_run, accessesGuarded]⟩

theorem c2_detection_mutex_guards_witness :
    accessesGuarded MutexId.detection 0 (requestComplete vlTest reqGood sysVideo).2 = true ∧
    countPublish (requestComplete vlTest reqGood sysVideo).2 ≤ 1 ∧
    accessesGuarded MutexId.detection 0 (get_latest_detections_run sysVideo).2 = true :=
  c2_detection_mutex_guards vlTest reqGood sysVideo bufGood rfl rfl

/-- A calibrated detector (install-script default intrinsics, zero
distortion). -/
def dCal : DetectorState :=
  { newDetector with camera_matrix := [800, 0, 600, 0, 800, 400, 0, 0, 1],
                     dist_coeffs := [0, 0, 0, 0], is_init := true }

/-- The 2×2 test frame. -/
def fTest : Frame := ⟨2, 2, [10, 20, 30, 40]⟩

/-- Claim C7: every dictionary returned by `get_latest_detections` has
exactly the keys `id`, `rvec`, `tvec`, `corners` in that order; when the
camera is not calibrated (camera matrix or distortion coefficients not
loaded) every produced pose is the zero vector pair; and when it is
calibrated, each result's `rvec`/`tvec` are exactly the vision library's
pose-solver outputs at the same index. -/
theorem c7_detection_dicts (vl : VisionLib) (s : SysState) (d : DetectorState)
    (f : Frame) :
    (∀ dict ∈ get_latest_detections s,
      dict.map Prod.fst = ["id", "rvec", "tvec", "corners"]) ∧
    ((d.camera_matrix = [] ∨ d.dist_coeffs = []) →
      ∀ r ∈ process_frame_for_detection vl d f,
        r.rvec = V3.zero ∧ r.tvec = V3.zero) ∧
    (d.is_init = true → d.camera_matrix ≠ [] → d.dist_coeffs ≠ [] →
      ∀ i, i < (vl.detectMarkers f).2.length →
        i < (vl.estimatePose (vl.detectMarkers f).1 d.marker_size
              d.camera_matrix d.dist_coeffs).1.length →
        i < (vl.estimatePose (vl.detectMarkers f).1 d.marker_size
              d.camera_matrix d.dist_coeffs).2.length →
        ((process_frame_for_detection vl d f).getD i DetectionResult.zero).rvec =
          (vl.estimatePose (vl.detectMarkers f).1 d.marker_size
            d.camera_matrix d.dist_coeffs).1.getD i V3.zero ∧
        ((process_frame_for_detection vl d f).getD i DetectionResult.zero).tvec =
          (vl.estimatePose (vl.detectMarkers f).1 d.marker_size
            d.camera_matrix d.dist_coeffs).2.getD i V3.zero) := by
  refine ⟨?_, ?_, ?_⟩
  · intro dict hd
    simp only [get_latest_detections, List.mem_map] at hd
    obtain ⟨det, _, rfl⟩ := hd
    rfl
  · intro hcal r hr
    simp only [process_frame_for_detection, List.mem_map, List.mem_range] at hr
    obtain ⟨i, _, rfl⟩ := hr
    rcases hcal with h | h <;> simp [h]
  · intro h1 h2 h3 i hi hr ht
    have hcm : d.camera_matrix.isEmpty = false := by
      cases hx : d.camera_matrix with
      | nil => exact absurd hx h2
      | cons a l => rfl
    have hdc : d.dist_coeffs.isEmpty = false := by
      cases hx : d.dist_coeffs with
      | nil => exact absurd hx h3
      | cons a l => rfl
    have hlen : (process_frame_for_detection vl d f).length =
        (vl.detectMarkers f).2.length := by
      simp [process_frame_for_detection]
    rw [List.getD_eq_getElem _ _ (by rw [hlen]; exact hi)]
    simp only [process_frame_for_detection, List.getElem_map, List.getElem_range]
    simp [h1, hcm, hdc, hr, ht]

theorem c7_detection_dicts_witness :
    (∀ dict ∈ get_latest_detections sysTest,
      dict.map Prod.fst = ["id", "rvec", "tvec", "corners"]) ∧
    (((process_frame_for_detection vlTest dCal fTest).getD 0
        DetectionResult.zero).rvec = ⟨1, 2, 3⟩ ∧
     ((process_frame_for_detection vlTest dCal fTest).getD 0
        DetectionResult.zero).tvec = ⟨4, 5, 6⟩) ∧
    (∀ r ∈ process_frame_for_detection vlTest detReady fTest,
      r.rvec = V3.zero ∧ r.tvec = V3.zero) := by
  refine ⟨(c7_detection_dicts vlTest sysTest dCal fTest).1, ?_, ?_⟩
  · have h := (c7_detection_dicts vlTest sysTest dCal fTest).2.2 rfl
      (by decide) (by decide) 0 (by decide) (by decide) (by decide)
    exact ⟨h.1.trans (by decide), h.2.trans (by decide)⟩
  · exact (c7_detection_dicts vlTest sysTest detReady fTest).2.1 (Or.inl rfl)

/-- Claim C6: the only filtering is the exponential moving average with
`ALPHA = 0.4`: a filter that has already received a sample returns, per
coordinate, `alpha * v + (1 - alpha) * previous_ema`; the tracker's
filter is constructed with `ALPHA`; and `process_detections` (past the
first frame, on a non-empty detection array) returns exactly one filter
update applied to the computed local coordinates, storing the updated
filter. -/
theorem c6_ema_filter (len : V3 → ℚ) (basisAA : V3 → ℚ → M3)
    (fl : EMAFilter) (v : V3) (t : TrackerState) (dets : List Det)
    (hf : fl.filled = true) (ht : t.first_frame = false) (hd : dets ≠ []) :
    ALPHA = 2/5 ∧
    trackerInit.filter.alpha = ALPHA ∧
    (fl.update v).2 = ⟨fl.alpha * v.x + (1 - fl.alpha) * fl.ema_x,
                       fl.alpha * v.y + (1 - fl.alpha) * fl.ema_y,
                       fl.alpha * v.z + (1 - fl.alpha) * fl.ema_z⟩ ∧
    (process_detections len basisAA t dets).2 =
      (t.filter.update (if t.first_ids ≠ [] then
          get_local_coordinates len basisAA
            ⟨t.first_ids.getD 0 0, t.first_rvecs.getD 0 V3.zero,
             t.first_tvecs.getD 0 V3.zero⟩ (get_centroid len basisAA dets)
        else V3.zero)).2 ∧
    (process_detections len basisAA t dets).1.filter =
      (t.filter.update (if t.first_ids ≠ [] then
          get_local_coordinates len basisAA
            ⟨t.first_ids.getD 0 0, t.first_rvecs.getD 0 V3.zero,
             t.first_tvecs.getD 0 V3.zero⟩ (get_centroid len basisAA dets)
        else V3.zero)).1 := by
  refine ⟨rfl, rfl, ?_, ?_, ?_⟩
  · simp [EMAFilter.update, hf]
  · simp [process_detections, hd, ht]
  · simp [process_detections, hd, ht]

theorem c6_ema_filter_witness :
    ALPHA = 2/5 ∧
    trackerInit.filter.alpha = ALPHA ∧
    (EMAFilter.update ⟨2/5, 1, 2, 3, true⟩ ⟨10, 10, 10⟩).2 =
      ⟨(2:ℚ)/5 * 10 + (1 - 2/5) * 1, (2:ℚ)/5 * 10 + (1 - 2/5) * 2,
       (2:ℚ)/5 * 10 + (1 - 2/5) * 3⟩ ∧
    (process_detections (fun _ => 0) (fun _ _ => M3.identity)
        ⟨⟨2/5, 1, 2, 3, true⟩, false, [4], [V3.zero], [⟨0, 0, 1⟩]⟩
        [⟨4, V3.zero, ⟨0, 0, 1⟩⟩]).2 =
      (EMAFilter.update ⟨2/5, 1, 2, 3, true⟩
        (if ([4] : List Int) ≠ [] then
          get_local_coordinates (fun _ => 0) (fun _ _ => M3.identity)
            ⟨([4] : List Int).getD 0 0, ([V3.zero]).getD 0 V3.zero,
             ([(⟨0, 0, 1⟩ : V3)]).getD 0 V3.zero⟩
            (get_centroid (fun _ => 0) (fun _ _ => M3.identity)
              [⟨4, V3.zero, ⟨0, 0, 1⟩⟩])
        else V3.zero)).2 ∧
    (process_detections (fun _ => 0) (fun _ _ => M3.identity)
        ⟨⟨2/5, 1, 2, 3, true⟩, false, [4], [V3.zero], [⟨0, 0, 1⟩]⟩
        [⟨4, V3.zero, ⟨0, 0, 1⟩⟩]).1.filter =
      (EMAFilter.update ⟨2/5, 1, 2, 3, true⟩
        (if ([4] : List Int) ≠ [] then
          get_local_coordinates (fun _ => 0) (fun _ _ => M3.identity)
            ⟨([4] : List Int).getD 0 0, ([V3.zero]).getD 0 V3.zero,
             ([(⟨0, 0, 1⟩ : V3)]).getD 0 V3.zero⟩
            (get_centroid (fun _ => 0) (fun _ _ => M3.identity)
              [⟨4, V3.zero, ⟨0, 0, 1⟩⟩])
        else V3.zero)).1 :=
  c6_ema_filter (fun _ => 0) (fun _ _ => M3.identity) ⟨2/5, 1, 2, 3, true⟩
    ⟨10, 10, 10⟩ ⟨⟨2/5, 1, 2, 3, true⟩, false, [4], [V3.zero], [⟨0, 0, 1⟩]⟩
    [⟨4, V3.zero, ⟨0, 0, 1⟩⟩] rfl rfl (by decide)
